import Mathlib

/-!
Verification of the tugboat inventory stock and alerting engine.

The definitions below are a shallow embedding of the Python source:
`InventoryItem` with its `add` / `remove` / `check_reorder` /
`get_usage_cost` methods (inventory/models.py), the `TugboatInventory`
registry (inventory/manager.py), the maintenance and safety tickets
(tickets/maintenance.py, tickets/safety.py) and the alert scan
`process_inventory_alerts` (utils/notifications.py).

Python dictionaries are modelled as insertion-ordered association lists,
integers as `Int`, the unit cost as `ℚ`, and wall-clock timestamps as an
explicit `now : Int` parameter (seconds).  A diagnostic that the Python
code reports by printing and returning without effect is modelled as an
`Option InvError` result component.
-/

/-- Failure diagnostics reported by the engine (the Python code prints a
message and leaves the state unchanged in each of these situations). -/
inductive InvError where
  | invalidQuantity
  | insufficientStock
  | notFound
  | unknownVessel
  | duplicateVessel
  | invalidPeriod
  deriving DecidableEq, Repr

/-- One usage-history record: `{'timestamp': datetime, 'quantity': int}`. -/
structure UsageRecord where
  timestamp : Int
  quantity : Int
  deriving DecidableEq, Repr

/-- The `InventoryItem` of inventory/models.py, with the field defaults of
its `__init__` (documents `None` becomes `[]`, `usage_history` and
`maintenance_records` start empty, `alert_active` starts `False`). -/
structure InventoryItem where
  item_number : String
  name : String
  description : String := ""
  location : String := ""
  unit : String := "each"
  vendor : String := ""
  min_stock : Int := 0
  safety_stock : Int := 0
  expiry_date : Option Int := none
  image_path : Option String := none
  documents : List String := []
  category : String := "Uncategorized"
  cost : ℚ := 0
  quantity : Int := 0
  usage_history : List UsageRecord := []
  maintenance_records : List String := []
  alert_active : Bool := false
  deriving DecidableEq, Repr

/-- `InventoryItem.add`: a negative quantity is rejected with no effect,
otherwise the on-hand quantity is incremented.  No history is recorded. -/
def InventoryItem.add (it : InventoryItem) (q : Int) : InventoryItem × Option InvError :=
  if q < 0 then (it, some .invalidQuantity)
  else ({ it with quantity := it.quantity + q }, none)

/-- `InventoryItem.remove`: a negative quantity is rejected; if enough is
on hand the quantity is decremented and one usage-history record is
appended, otherwise nothing changes and insufficient stock is reported. -/
def InventoryItem.remove (it : InventoryItem) (q : Int) (now : Int) :
    InventoryItem × Option InvError :=
  if q < 0 then (it, some .invalidQuantity)
  else if it.quantity ≥ q then
    ({ it with quantity := it.quantity - q,
               usage_history := it.usage_history ++ [⟨now, q⟩] }, none)
  else (it, some .insufficientStock)

/-- `InventoryItem.check_reorder`: quantity at or below
`min_stock + safety_stock`. -/
def InventoryItem.check_reorder (it : InventoryItem) : Bool :=
  it.quantity ≤ it.min_stock + it.safety_stock

/-- The accumulation loop of `get_usage_cost`: add `record.quantity * cost`
for every history record whose age `now - timestamp` is at most `delta`. -/
def usageTotal (cost : ℚ) (now delta : Int) (hist : List UsageRecord) : ℚ :=
  hist.foldl (fun acc r => if now - r.timestamp ≤ delta then acc + r.quantity * cost else acc) 0

/-- `InventoryItem.get_usage_cost`: window of 30, 90 or 365 days for
periods "monthly", "quarterly", "yearly"; any other period string is
reported as invalid with result 0. -/
def InventoryItem.get_usage_cost (it : InventoryItem) (period : String) (now : Int) :
    ℚ × Option InvError :=
  if period = "monthly" then (usageTotal it.cost now (30 * 24 * 3600) it.usage_history, none)
  else if period = "quarterly" then (usageTotal it.cost now (90 * 24 * 3600) it.usage_history, none)
  else if period = "yearly" then (usageTotal it.cost now (365 * 24 * 3600) it.usage_history, none)
  else (0, some .invalidPeriod)

/-- Lookup in an insertion-ordered association list (a Python dict). -/
def lookupA {α : Type} : List (String × α) → String → Option α
  | [], _ => none
  | (k, v) :: rest, key => if k = key then some v else lookupA rest key

/-- In-place update of the entry of a key, preserving insertion order. -/
def updateA {α : Type} : List (String × α) → String → α → List (String × α)
  | [], _, _ => []
  | (k, v) :: rest, key, w => if k = key then (k, w) :: rest else (k, v) :: updateA rest key w

/-- The `TugboatInventory` of inventory/manager.py: tugboat name to
(item number to item), both dicts in insertion order. -/
structure TugboatInventory where
  inventory : List (String × List (String × InventoryItem))
  deriving DecidableEq, Repr

/-- `TugboatInventory.add_tugboat`: create an empty per-vessel map, or
report a duplicate with no effect. -/
def TugboatInventory.add_tugboat (inv : TugboatInventory) (tug : String) :
    TugboatInventory × Option InvError :=
  match lookupA inv.inventory tug with
  | none => ({ inventory := inv.inventory ++ [(tug, [])] }, none)
  | some _ => (inv, some .duplicateVessel)

/-- `TugboatInventory.add_item`: unknown tugboat is rejected; an existing
item number is merged by `InventoryItem.add`; otherwise a fresh
`InventoryItem` is constructed from the arguments and appended. -/
def TugboatInventory.add_item (inv : TugboatInventory)
    (tug num nm d loc u vend : String) (minS safeS : Int)
    (expiry : Option Int) (image : Option String) (docs : List String)
    (cat : String) (c : ℚ) (q : Int) : TugboatInventory × Option InvError :=
  match lookupA inv.inventory tug with
  | none => (inv, some .unknownVessel)
  | some items =>
    match lookupA items num with
    | some it =>
        let r := it.add q
        ({ inventory := updateA inv.inventory tug (updateA items num r.fst) }, r.snd)
    | none =>
        ({ inventory := updateA inv.inventory tug (items ++ [(num,
            { item_number := num, name := nm, description := d, location := loc,
              unit := u, vendor := vend, min_stock := minS, safety_stock := safeS,
              expiry_date := expiry, image_path := image, documents := docs,
              category := cat, cost := c, quantity := q,
              usage_history := [], maintenance_records := [],
              alert_active := false })]) }, none)

/-- `TugboatInventory.remove_item`: delegate to `InventoryItem.remove`
when both the tugboat and the item exist, otherwise report not-found
(one combined diagnostic in the source). -/
def TugboatInventory.remove_item (inv : TugboatInventory) (tug num : String) (q now : Int) :
    TugboatInventory × Option InvError :=
  match lookupA inv.inventory tug with
  | none => (inv, some .notFound)
  | some items =>
    match lookupA items num with
    | none => (inv, some .notFound)
    | some it =>
      let r := it.remove q now
      ({ inventory := updateA inv.inventory tug (updateA items num r.fst) }, r.snd)

/-- A stock mutation, for stating invariants over call sequences. -/
inductive StockOp where
  | add (q : Int)
  | remove (q : Int) (now : Int)
  deriving DecidableEq, Repr

/-- Apply one stock mutation to an item, discarding the diagnostic. -/
def applyOp (it : InventoryItem) (op : StockOp) : InventoryItem :=
  match op with
  | .add q => (it.add q).fst
  | .remove q now => (it.remove q now).fst

/-- A concrete item with five on hand, used to instantiate theorems. -/
def itA : InventoryItem :=
  { item_number := "A", name := "Alpha", quantity := 5 }

/-- One stock operation never drives a non-negative quantity negative. -/
theorem applyOp_nonneg (it : InventoryItem) (op : StockOp) (h : 0 ≤ it.quantity) :
    0 ≤ (applyOp it op).quantity := by
  cases op with
  | add q =>
      simp only [applyOp, InventoryItem.add]
      split <;> simp <;> omega
  | remove q now =>
      simp only [applyOp, InventoryItem.remove]
      split
      · simpa using h
      · split <;> simp <;> omega

/-- C1: remove with a negative amount fails as an invalid quantity and
changes nothing; remove with a non-negative amount exceeding the on-hand
quantity fails as insufficient stock and changes neither the quantity nor
the usage history; otherwise it decrements the quantity by the amount and
appends exactly one usage-history record carrying that amount. -/
theorem remove_cases (it : InventoryItem) (q now : Int) :
    (q < 0 → it.remove q now = (it, some InvError.invalidQuantity)) ∧
    (0 ≤ q → it.quantity < q → it.remove q now = (it, some InvError.insufficientStock)) ∧
    (0 ≤ q → q ≤ it.quantity →
      it.remove q now =
        ({ it with quantity := it.quantity - q,
                   usage_history := it.usage_history ++ [⟨now, q⟩] }, none)) := by
  refine ⟨?_, ?_, ?_⟩
  · intro h
    simp only [InventoryItem.remove, if_pos h]
  · intro h1 h2
    rw [InventoryItem.remove, if_neg (by omega), if_neg (by omega)]
  · intro h1 h2
    rw [InventoryItem.remove, if_neg (by omega), if_pos (by omega)]

/-- Witness for C1 on a concrete item with five on hand. -/
theorem remove_cases_w :
    itA.remove (-1) 0 = (itA, some InvError.invalidQuantity) ∧
    itA.remove 9 0 = (itA, some InvError.insufficientStock) ∧
    itA.remove 2 0 =
      ({ itA with quantity := itA.quantity - 2,
                  usage_history := itA.usage_history ++ [⟨0, 2⟩] }, none) :=
  ⟨(remove_cases itA (-1) 0).1 (by decide),
   (remove_cases itA 9 0).2.1 (by decide) (by decide),
   (remove_cases itA 2 0).2.2 (by decide) (by decide)⟩

/-- C2: starting from a non-negative quantity, any finite sequence of add
and remove calls with arbitrary integer arguments leaves the quantity
non-negative; a remove whose amount exceeds the on-hand quantity reports
insufficient stock and leaves the item exactly as it was. -/
theorem quantity_nonneg (it : InventoryItem) (ops : List StockOp) (q now : Int)
    (h : 0 ≤ it.quantity) (hq : it.quantity < q) :
    0 ≤ (ops.foldl applyOp it).quantity ∧
    it.remove q now = (it, some InvError.insufficientStock) := by
  constructor
  · clear hq
    induction ops generalizing it with
    | nil => simpa using h
    | cons op rest ih =>
        simpa using ih (applyOp it op) (applyOp_nonneg it op h)
  · rw [InventoryItem.remove, if_neg (by omega), if_neg (by omega)]

/-- Witness for C2: a sequence mixing valid, oversized and negative
amounts on the concrete item. -/
theorem quantity_nonneg_w :
    0 ≤ ([StockOp.add 3, StockOp.remove 100 0, StockOp.remove (-2) 0,
          StockOp.remove 4 1].foldl applyOp itA).quantity ∧
    itA.remove 9 0 = (itA, some InvError.insufficientStock) :=
  quantity_nonneg itA _ 9 0 (by decide) (by decide)

/-- Counterexample to C9: removing zero from an item with five on hand
appends a zero-amount usage-history record, so the item is changed. -/
theorem remove_zero_cx :
    ((itA.remove 0 0).fst.usage_history).length = itA.usage_history.length + 1 := by
  decide

/-- C9 (amended): add of zero leaves the item completely unchanged; remove
of zero on an item whose quantity is non-negative leaves the quantity
unchanged but appends one usage-history record with amount zero. -/
theorem add_remove_zero (it : InventoryItem) (now : Int) (h : 0 ≤ it.quantity) :
    it.add 0 = (it, none) ∧
    it.remove 0 now = ({ it with usage_history := it.usage_history ++ [⟨now, 0⟩] }, none) := by
  obtain ⟨n, nm, d, loc, u, v, ms, ss, ed, ip, docs, cat, c, qty, uh, mr, aa⟩ := it
  constructor
  · simp [InventoryItem.add]
  · simp only [InventoryItem.remove] at h ⊢
    rw [if_neg (by omega), if_pos (by simpa using h)]
    simp

/-- Witness for C9 (amended) on the concrete item. -/
theorem add_remove_zero_w :
    itA.add 0 = (itA, none) ∧
    itA.remove 0 7 = ({ itA with usage_history := itA.usage_history ++ [⟨7, 0⟩] }, none) :=
  add_remove_zero itA 7 (by decide)

/-- The `MaintenanceTicket` of tickets/maintenance.py. -/
structure MaintenanceTicket where
  description : String
  required_items : List (String × Int)
  comments : List String := []
  completed : Bool := false
  deriving DecidableEq, Repr

/-- One line item of ticket fulfillment: remove the required amount and
collect the diagnostic, if any, after the already-collected ones. -/
def fulfillStep (tug : String) (now : Int) (acc : TugboatInventory × List InvError)
    (line : String × Int) : TugboatInventory × List InvError :=
  let r := acc.fst.remove_item tug line.fst line.snd now
  (r.fst, acc.snd ++ r.snd.toList)

/-- `MaintenanceTicket.complete_ticket`: remove every required item in the
map's insertion order, then mark the ticket completed. -/
def MaintenanceTicket.complete_ticket (t : MaintenanceTicket) (inv : TugboatInventory)
    (tug : String) (now : Int) : MaintenanceTicket × TugboatInventory × List InvError :=
  let res := t.required_items.foldl (fulfillStep tug now) (inv, [])
  ({ t with completed := true }, res)

/-- The `SafetyTicket` of tickets/safety.py. -/
structure SafetyTicket where
  description : String
  documentation : List String := []
  completed : Bool := false
  deriving DecidableEq, Repr

/-- `SafetyTicket.complete_ticket`: mark the ticket completed. -/
def SafetyTicket.complete_ticket (t : SafetyTicket) : SafetyTicket :=
  { t with completed := true }

/-- A concrete item with three on hand. -/
def itB : InventoryItem :=
  { item_number := "B", name := "Beta", quantity := 3 }

/-- A concrete registry: one vessel "V" stocking items "A" (five on hand)
and "B" (three on hand). -/
def invV : TugboatInventory :=
  { inventory := [("V", [("A", itA), ("B", itB)])] }

/-- A pending ticket requiring ten of item "B", of which only three are
stocked. -/
def tickFail : MaintenanceTicket :=
  { description := "job", required_items := [("B", 10)] }

/-- A pending ticket requiring two of "A" (satisfiable) and then ten of
"B" (not satisfiable). -/
def tickAB : MaintenanceTicket :=
  { description := "job2", required_items := [("A", 2), ("B", 10)] }

/-- An already-completed ticket requiring two of item "A". -/
def tickDone : MaintenanceTicket :=
  { description := "done", required_items := [("A", 2)], completed := true }

/-- An already-completed safety ticket. -/
def sDone : SafetyTicket :=
  { description := "drill", completed := true }

/-- Counterexample to C3: fulfilling a ticket that requires ten of item
"B" against three on hand reports insufficient stock and leaves the
inventory unchanged, yet the ticket IS marked completed. -/
theorem complete_partial_cx :
    (tickFail.complete_ticket invV "V" 0).snd.snd = [InvError.insufficientStock] ∧
    (tickFail.complete_ticket invV "V" 0).snd.fst = invV ∧
    (tickFail.complete_ticket invV "V" 0).fst.completed = true := by
  decide

/-- C3 (amended): fulfillment processes the required items in the map's
insertion order, one stock removal per line item; a failing line item
leaves its item's stock unchanged while deductions already made for
earlier line items remain deducted (no rollback); and the ticket is
marked completed unconditionally, even when a line item fails. -/
theorem complete_no_rollback (t : MaintenanceTicket) (inv : TugboatInventory)
    (tug : String) (now : Int) :
    (t.complete_ticket inv tug now).fst = { t with completed := true } ∧
    (t.complete_ticket inv tug now).snd =
      t.required_items.foldl (fulfillStep tug now) (inv, []) ∧
    (tickAB.complete_ticket invV "V" 0).snd.fst.inventory =
      [("V", [("A", { itA with quantity := 3, usage_history := [⟨0, 2⟩] }), ("B", itB)])] ∧
    (tickAB.complete_ticket invV "V" 0).snd.snd = [InvError.insufficientStock] ∧
    (tickAB.complete_ticket invV "V" 0).fst.completed = true := by
  exact ⟨rfl, rfl, by decide, by decide, by decide⟩

/-- Counterexample to C4: re-fulfilling an already-completed ticket
reports no error at all and deducts the required stock again (item "A"
drops from five to three). -/
theorem complete_completed_cx :
    tickDone.completed = true ∧
    (tickDone.complete_ticket invV "V" 0).snd.snd = [] ∧
    (tickDone.complete_ticket invV "V" 0).snd.fst.inventory =
      [("V", [("A", { itA with quantity := 3, usage_history := [⟨0, 2⟩] }), ("B", itB)])] := by
  decide

/-- C4 (amended): maintenance fulfillment never consults the completed
flag: on an already-completed ticket it deducts exactly as it would on a
pending one (re-deduction) and still reports completion, with no
already-completed error; the safety ticket's completion likewise sets the
flag unconditionally. -/
theorem complete_ignores_completed (t : MaintenanceTicket) (s : SafetyTicket)
    (inv : TugboatInventory) (tug : String) (now : Int) (h : t.completed = true) :
    (t.complete_ticket inv tug now).fst.completed = true ∧
    (t.complete_ticket inv tug now).snd =
      ({ t with completed := false }.complete_ticket inv tug now).snd ∧
    s.complete_ticket = { s with completed := true } := by
  exact ⟨rfl, rfl, rfl⟩

/-- Witness for C4 (amended) on the concrete completed tickets. -/
theorem complete_ignores_completed_w :
    tickDone.completed = true ∧
    ((tickDone.complete_ticket invV "V" 0).fst.completed = true ∧
     (tickDone.complete_ticket invV "V" 0).snd =
       ({ tickDone with completed := false }.complete_ticket invV "V" 0).snd ∧
     sDone.complete_ticket = { sDone with completed := true }) :=
  ⟨rfl, complete_ignores_completed tickDone sDone invV "V" 0 rfl⟩

/-- One step of the alert scan on a single item, mirroring the branch
structure of `process_inventory_alerts`: result item, whether the item is
appended to the returned alert list, whether a notification is sent. -/
def scanItem (it : InventoryItem) : InventoryItem × Bool × Bool :=
  if it.check_reorder then
    if !it.alert_active then ({ it with alert_active := true }, true, true)
    else (it, true, false)
  else if it.alert_active then ({ it with alert_active := false }, false, false)
  else (it, false, false)

/-- Scan of one vessel's item map, in insertion order. -/
def scanItems (tug : String) :
    List (String × InventoryItem) →
      List (String × InventoryItem) × List (String × InventoryItem) × List (String × String)
  | [] => ([], [], [])
  | (num, it) :: rest =>
    let r := scanItem it
    let tail := scanItems tug rest
    ((num, r.fst) :: tail.fst,
     (if r.snd.fst then [(tug, r.fst)] else []) ++ tail.snd.fst,
     (if r.snd.snd then [(tug, num)] else []) ++ tail.snd.snd)

/-- Scan of the whole registry, vessel by vessel in insertion order. -/
def scanAll :
    List (String × List (String × InventoryItem)) →
      List (String × List (String × InventoryItem)) ×
        List (String × InventoryItem) × List (String × String)
  | [] => ([], [], [])
  | (tug, items) :: rest =>
    let r := scanItems tug items
    let tail := scanAll rest
    ((tug, r.fst) :: tail.fst, r.snd.fst ++ tail.snd.fst, r.snd.snd ++ tail.snd.snd)

/-- `process_inventory_alerts`: updated registry, the returned alert list
(tugboat paired with the item as it stands after the visit), and the
notifications sent during the scan (tugboat and item number). -/
def process_inventory_alerts (inv : TugboatInventory) :
    TugboatInventory × List (String × InventoryItem) × List (String × String) :=
  let r := scanAll inv.inventory
  ({ inventory := r.fst }, r.snd)

/-- Modelled from the spec: the per-item effect of one scan visit in the
words of the alert state machine, the alert flag afterwards reflecting
the reorder predicate. -/
def scanItemSpec (it : InventoryItem) : InventoryItem :=
  { it with alert_active := it.check_reorder }

/-- The reorder predicate ignores the alert flag. -/
theorem check_reorder_scanItemSpec (it : InventoryItem) :
    (scanItemSpec it).check_reorder = it.check_reorder := by
  cases it
  rfl

/-- The scan of one item in closed form. -/
theorem scanItem_eq (it : InventoryItem) :
    scanItem it = (scanItemSpec it, it.check_reorder, it.check_reorder && !it.alert_active) := by
  obtain ⟨n, nm, d, loc, u, v, ms, ss, ed, ip, docs, cat, c, qty, uh, mr, aa⟩ := it
  cases aa <;> by_cases h : qty ≤ ms + ss <;>
    simp [scanItem, scanItemSpec, InventoryItem.check_reorder, h]

/-- The scan of one vessel's item map in closed form. -/
theorem scanItems_eq (tug : String) (l : List (String × InventoryItem)) :
    scanItems tug l =
      (l.map (fun p => (p.fst, scanItemSpec p.snd)),
       (l.filter (fun p => p.snd.check_reorder)).map (fun p => (tug, scanItemSpec p.snd)),
       (l.filter (fun p => p.snd.check_reorder && !p.snd.alert_active)).map
         (fun p => (tug, p.fst))) := by
  induction l with
  | nil => rfl
  | cons p rest ih =>
      obtain ⟨num, it⟩ := p
      simp only [scanItems, ih, scanItem_eq, List.map_cons, List.filter_cons]
      by_cases h1 : it.check_reorder <;> by_cases h2 : it.alert_active <;>
        simp [h1, h2]

/-- The scan of the whole registry in closed form. -/
theorem scanAll_eq (l : List (String × List (String × InventoryItem))) :
    scanAll l =
      (l.map (fun v => (v.fst, v.snd.map (fun p => (p.fst, scanItemSpec p.snd)))),
       (l.map (fun v => ((v.snd.filter (fun p => p.snd.check_reorder)).map
          (fun p => (v.fst, scanItemSpec p.snd))))).flatten,
       (l.map (fun v => ((v.snd.filter (fun p => p.snd.check_reorder && !p.snd.alert_active)).map
          (fun p => (v.fst, p.fst))))).flatten) := by
  induction l with
  | nil => rfl
  | cons v rest ih =>
      obtain ⟨tug, items⟩ := v
      simp [scanAll, ih, scanItems_eq]

/-- Visiting an item twice is the same as visiting it once. -/
theorem scanItemSpec_idem (it : InventoryItem) :
    scanItemSpec (scanItemSpec it) = scanItemSpec it := by
  cases it
  rfl

/-- After a visit, the alert flag equals the reorder predicate. -/
theorem alert_scanItemSpec (it : InventoryItem) :
    (scanItemSpec it).alert_active = it.check_reorder :=
  rfl

/-- Rescanning a vessel's already-scanned item map changes nothing,
reproduces the alert list, and sends no notifications. -/
theorem scanItems_idem (tug : String) (items : List (String × InventoryItem)) :
    scanItems tug (scanItems tug items).fst =
      ((scanItems tug items).fst, (scanItems tug items).snd.fst, []) := by
  induction items with
  | nil => rfl
  | cons p rest ih =>
      obtain ⟨num, it⟩ := p
      simp [scanItems, scanItem_eq, scanItemSpec_idem, check_reorder_scanItemSpec,
        alert_scanItemSpec, ih]

/-- Rescanning the whole already-scanned registry changes nothing,
reproduces the alert list, and sends no notifications. -/
theorem scanAll_idem (l : List (String × List (String × InventoryItem))) :
    scanAll (scanAll l).fst = ((scanAll l).fst, (scanAll l).snd.fst, []) := by
  induction l with
  | nil => rfl
  | cons v rest ih =>
      obtain ⟨tug, items⟩ := v
      simp [scanAll, scanItems_idem, ih]

/-- C5: a single scan visits every item of every vessel; it sends exactly
one notification for an item exactly when the reorder predicate holds and
the alert flag was clear, setting the flag; an item already flagged and
still at or below threshold triggers no notification; an item above
threshold has its flag cleared silently; and the returned alert list is
exactly the (vessel, item) pairs currently at or below threshold,
whether or not a notification was just sent. -/
theorem alerts_scan_behavior (inv : TugboatInventory) :
    process_inventory_alerts inv =
      ({ inventory := inv.inventory.map
           (fun v => (v.fst, v.snd.map (fun p => (p.fst, scanItemSpec p.snd)))) },
       (inv.inventory.map (fun v => ((v.snd.filter (fun p => p.snd.check_reorder)).map
          (fun p => (v.fst, scanItemSpec p.snd))))).flatten,
       (inv.inventory.map (fun v => ((v.snd.filter
            (fun p => p.snd.check_reorder && !p.snd.alert_active)).map
          (fun p => (v.fst, p.fst))))).flatten) := by
  simp [process_inventory_alerts, scanAll_eq]

/-- C6: a second scan with no intervening stock change leaves the
registry as it was, returns the same alert list as the first scan, and
sends zero notifications. -/
theorem alerts_scan_idem (inv : TugboatInventory) :
    process_inventory_alerts (process_inventory_alerts inv).fst =
      ((process_inventory_alerts inv).fst, (process_inventory_alerts inv).snd.fst, []) := by
  obtain ⟨l⟩ := inv
  simp [process_inventory_alerts, scanAll_idem]

/-- The accumulation loop computes the sum over the in-window records. -/
theorem usageTotal_foldl (cost : ℚ) (now delta : Int) (l : List UsageRecord) (a : ℚ) :
    l.foldl (fun acc r => if now - r.timestamp ≤ delta then acc + r.quantity * cost else acc) a =
      a + ((l.filter (fun r => now - r.timestamp ≤ delta)).map
        (fun r => (r.quantity : ℚ) * cost)).sum := by
  induction l generalizing a with
  | nil => simp
  | cons r rest ih =>
      simp only [List.foldl_cons, List.filter_cons]
      by_cases h : now - r.timestamp ≤ delta
      · rw [if_pos h, ih, if_pos (by simpa using h)]
        simp only [List.map_cons, List.sum_cons]
        ring
      · rw [if_neg h, ih, if_neg (by simpa using h)]

/-- Summation form of `usageTotal`. -/
theorem usageTotal_eq (cost : ℚ) (now delta : Int) (hist : List UsageRecord) :
    usageTotal cost now delta hist =
      ((hist.filter (fun r => now - r.timestamp ≤ delta)).map
        (fun r => (r.quantity : ℚ) * cost)).sum := by
  unfold usageTotal
  rw [usageTotal_foldl, zero_add]

/-- A concrete item with unit cost ten and two usage records that are
five days and forty days old when `now` is day forty. -/
def itC : InventoryItem :=
  { item_number := "C", name := "Gamma", cost := 10,
    usage_history := [⟨35 * 24 * 3600, 2⟩, ⟨0, 3⟩] }

/-- C7: usage cost over "monthly", "quarterly" and "yearly" sums
`record.quantity * cost` over exactly the records at most 30, 90 and 365
days old; with unit cost ten and records of amounts two (five days old)
and three (forty days old) the monthly cost is twenty and the quarterly
cost is fifty; any other period string is reported invalid. -/
theorem usage_cost_windows (it : InventoryItem) (p : String) (now : Int)
    (hp : p ≠ "monthly" ∧ p ≠ "quarterly" ∧ p ≠ "yearly") :
    it.get_usage_cost "monthly" now =
      (((it.usage_history.filter (fun r => now - r.timestamp ≤ 30 * 24 * 3600)).map
          (fun r => (r.quantity : ℚ) * it.cost)).sum, none) ∧
    it.get_usage_cost "quarterly" now =
      (((it.usage_history.filter (fun r => now - r.timestamp ≤ 90 * 24 * 3600)).map
          (fun r => (r.quantity : ℚ) * it.cost)).sum, none) ∧
    it.get_usage_cost "yearly" now =
      (((it.usage_history.filter (fun r => now - r.timestamp ≤ 365 * 24 * 3600)).map
          (fun r => (r.quantity : ℚ) * it.cost)).sum, none) ∧
    it.get_usage_cost p now = (0, some InvError.invalidPeriod) ∧
    itC.get_usage_cost "monthly" (40 * 24 * 3600) = (20, none) ∧
    itC.get_usage_cost "quarterly" (40 * 24 * 3600) = (50, none) := by
  obtain ⟨h1, h2, h3⟩ := hp
  refine ⟨?_, ?_, ?_, ?_, ?_, ?_⟩
  · unfold InventoryItem.get_usage_cost
    rw [if_pos rfl, usageTotal_eq]
  · unfold InventoryItem.get_usage_cost
    rw [if_neg (by decide), if_pos rfl, usageTotal_eq]
  · unfold InventoryItem.get_usage_cost
    rw [if_neg (by decide), if_neg (by decide), if_pos rfl, usageTotal_eq]
  · unfold InventoryItem.get_usage_cost
    rw [if_neg h1, if_neg h2, if_neg h3]
  · norm_num [itC, InventoryItem.get_usage_cost, usageTotal, List.foldl_cons, List.foldl_nil]
  · unfold InventoryItem.get_usage_cost
    rw [if_neg (by decide), if_pos rfl]
    norm_num [itC, usageTotal, List.foldl_cons, List.foldl_nil]

/-- Witness for C7: the concrete item, with the unrecognized period
"weekly". -/
theorem usage_cost_windows_w :
    itC.get_usage_cost "weekly" (40 * 24 * 3600) = (0, some InvError.invalidPeriod) ∧
    itC.get_usage_cost "monthly" (40 * 24 * 3600) = (20, none) ∧
    itC.get_usage_cost "quarterly" (40 * 24 * 3600) = (50, none) := by
  have h := usage_cost_windows itC "weekly" (40 * 24 * 3600) (by decide)
  exact ⟨h.2.2.2.1, h.2.2.2.2.1, h.2.2.2.2.2⟩

/-- Merging a quantity into an item only touches the quantity field, and
only when the amount is non-negative. -/
theorem add_fst (it : InventoryItem) (q : Int) :
    (it.add q).fst =
      { it with quantity := if q < 0 then it.quantity else it.quantity + q } := by
  obtain ⟨n, nm, d, loc, u, v, ms, ss, ed, ip, docs, cat, c, qty, uh, mr, aa⟩ := it
  by_cases h : q < 0 <;> simp [InventoryItem.add, h]

/-- Merging a quantity reports the invalid-quantity diagnostic exactly
for a negative amount. -/
theorem add_snd (it : InventoryItem) (q : Int) :
    (it.add q).snd = if q < 0 then some InvError.invalidQuantity else none := by
  by_cases h : q < 0 <;> simp [InventoryItem.add, h]

/-- Updating one key of an association list leaves every other key's
binding unchanged. -/
theorem lookupA_updateA_ne {α : Type} (l : List (String × α)) (k key : String) (v : α)
    (h : k ≠ key) :
    lookupA (updateA l key v) k = lookupA l k := by
  induction l with
  | nil => rfl
  | cons p rest ih =>
      obtain ⟨k2, w⟩ := p
      by_cases h2 : k2 = key <;> by_cases h3 : k2 = k <;>
        simp_all [updateA, lookupA]

/-- Appending a binding for a previously absent key makes it found. -/
theorem lookupA_append_none {α : Type} (l : List (String × α)) (k : String) (v : α)
    (h : lookupA l k = none) :
    lookupA (l ++ [(k, v)]) k = some v := by
  induction l with
  | nil => simp [lookupA]
  | cons p rest ih =>
      obtain ⟨k2, w⟩ := p
      by_cases h2 : k2 = k <;> simp_all [lookupA]

/-- Counterexample to C8: restocking the existing item "A" (five on hand)
with the supplied amount minus one leaves the registry unchanged, so the
quantity is not increased by the supplied amount. -/
theorem add_item_negative_cx :
    (invV.add_item "V" "A" "x" "" "" "each" "" 0 0 none none [] "Uncategorized" 0 (-1)).fst
      = invV ∧
    itA.quantity + (-1) ≠ itA.quantity := by
  decide

/-- C8 (amended): on a registered vessel with an already-present item
number, a non-negative supplied amount increases only that item's
quantity with no error, while a negative amount is rejected with the
invalid-quantity diagnostic and leaves the item fully unchanged; in both
cases every other field of the item, every other item of the vessel, and
every other vessel are untouched; on an unregistered vessel the
operation fails as unknown vessel and creates no vessel or item state. -/
theorem add_item_merge (inv inv2 : TugboatInventory)
    (tug tug2 num nm d loc u vend : String) (minS safeS : Int)
    (expiry : Option Int) (image : Option String) (docs : List String)
    (cat : String) (c : ℚ) (q : Int)
    (items : List (String × InventoryItem)) (it : InventoryItem)
    (k otherTug : String)
    (hv : lookupA inv.inventory tug = some items)
    (hi : lookupA items num = some it)
    (hk : k ≠ num) (ht : otherTug ≠ tug)
    (hv2 : lookupA inv2.inventory tug2 = none) :
    inv.add_item tug num nm d loc u vend minS safeS expiry image docs cat c q =
      ({ inventory := updateA inv.inventory tug (updateA items num
          { it with quantity := if q < 0 then it.quantity else it.quantity + q }) },
       if q < 0 then some InvError.invalidQuantity else none) ∧
    lookupA (updateA items num
        { it with quantity := if q < 0 then it.quantity else it.quantity + q }) k =
      lookupA items k ∧
    lookupA (updateA inv.inventory tug (updateA items num
        { it with quantity := if q < 0 then it.quantity else it.quantity + q })) otherTug =
      lookupA inv.inventory otherTug ∧
    inv2.add_item tug2 num nm d loc u vend minS safeS expiry image docs cat c q =
      (inv2, some InvError.unknownVessel) := by
  refine ⟨?_, lookupA_updateA_ne _ _ _ _ hk, lookupA_updateA_ne _ _ _ _ ht, ?_⟩
  · unfold TugboatInventory.add_item
    rw [hv]
    simp only [hi, add_fst, add_snd]
  · unfold TugboatInventory.add_item
    rw [hv2]

/-- Witness for C8 (amended): restock the existing item "A" of vessel
"V" with the negative amount minus one, which is rejected with the
invalid-quantity diagnostic; the unregistered vessel "W" is rejected. -/
theorem add_item_merge_w :
    invV.add_item "V" "A" "x" "" "" "each" "" 0 0 none none [] "Uncategorized" 0 (-1) =
      ({ inventory := updateA invV.inventory "V" (updateA [("A", itA), ("B", itB)] "A"
          { itA with quantity := if (-1 : Int) < 0 then itA.quantity else itA.quantity + (-1) }) },
       if (-1 : Int) < 0 then some InvError.invalidQuantity else none) ∧
    lookupA (updateA [("A", itA), ("B", itB)] "A"
        { itA with quantity := if (-1 : Int) < 0 then itA.quantity else itA.quantity + (-1) }) "B" =
      lookupA [("A", itA), ("B", itB)] "B" ∧
    lookupA (updateA invV.inventory "V" (updateA [("A", itA), ("B", itB)] "A"
        { itA with quantity := if (-1 : Int) < 0 then itA.quantity else itA.quantity + (-1) })) "W" =
      lookupA invV.inventory "W" ∧
    invV.add_item "W" "A" "x" "" "" "each" "" 0 0 none none [] "Uncategorized" 0 (-1) =
      (invV, some InvError.unknownVessel) :=
  add_item_merge invV invV "V" "W" "A" "x" "" "" "each" "" 0 0 none none [] "Uncategorized" 0
    (-1) [("A", itA), ("B", itB)] itA "B" "W" (by decide) (by decide) (by decide) (by decide)
    (by decide)

/-- C10: creating a new item on a registered vessel stores the supplied
initial quantity verbatim, with no validation and no error: the new item
carries exactly the supplied (possibly negative) quantity, an empty usage
history and a clear alert flag, and is found under its item number. -/
theorem add_item_new_unvalidated (inv : TugboatInventory)
    (tug num nm d loc u vend : String) (minS safeS : Int)
    (expiry : Option Int) (image : Option String) (docs : List String)
    (cat : String) (c : ℚ) (q : Int)
    (items : List (String × InventoryItem))
    (hv : lookupA inv.inventory tug = some items)
    (hi : lookupA items num = none) :
    inv.add_item tug num nm d loc u vend minS safeS expiry image docs cat c q =
      ({ inventory := updateA inv.inventory tug (items ++ [(num,
          { item_number := num, name := nm, description := d, location := loc,
            unit := u, vendor := vend, min_stock := minS, safety_stock := safeS,
            expiry_date := expiry, image_path := image, documents := docs,
            category := cat, cost := c, quantity := q,
            usage_history := [], maintenance_records := [],
            alert_active := false })]) }, none) ∧
    (lookupA (items ++ [(num,
        { item_number := num, name := nm, description := d, location := loc,
          unit := u, vendor := vend, min_stock := minS, safety_stock := safeS,
          expiry_date := expiry, image_path := image, documents := docs,
          category := cat, cost := c, quantity := q,
          usage_history := [], maintenance_records := [],
          alert_active := false })]) num).map InventoryItem.quantity = some q := by
  constructor
  · unfold TugboatInventory.add_item
    rw [hv]
    simp only [hi]
  · rw [lookupA_append_none _ _ _ hi]
    rfl

/-- Witness for C10: stocking a brand-new item "Z" on vessel "V" with the
negative initial quantity minus five stores minus five and reports no
error. -/
theorem add_item_new_unvalidated_w :
    invV.add_item "V" "Z" "z" "" "" "each" "" 0 0 none none [] "Uncategorized" 0 (-5) =
      ({ inventory := updateA invV.inventory "V" ([("A", itA), ("B", itB)] ++ [("Z",
          { item_number := "Z", name := "z", description := "", location := "",
            unit := "each", vendor := "", min_stock := 0, safety_stock := 0,
            expiry_date := none, image_path := none, documents := [],
            category := "Uncategorized", cost := 0, quantity := -5,
            usage_history := [], maintenance_records := [],
            alert_active := false })]) }, none) ∧
    (lookupA ([("A", itA), ("B", itB)] ++ [("Z",
        { item_number := "Z", name := "z", description := "", location := "",
          unit := "each", vendor := "", min_stock := 0, safety_stock := 0,
          expiry_date := none, image_path := none, documents := [],
          category := "Uncategorized", cost := 0, quantity := -5,
          usage_history := [], maintenance_records := [],
          alert_active := false })]) "Z").map InventoryItem.quantity = some (-5) :=
  add_item_new_unvalidated invV "V" "Z" "z" "" "" "each" "" 0 0 none none [] "Uncategorized"
    0 (-5) [("A", itA), ("B", itB)] (by decide) (by decide)
